import Mathlib

/-!
Verification of the crypto payment verification and credit-settlement subsystem
of the AI-gto-poker-backend repository.

The JavaScript source is shallowly embedded: route handlers and helper
functions become pure Lean functions, the document database becomes an
explicit state record threaded through each operation, and JavaScript
numbers are modelled as exact rationals (the amounts, rates and credit
computations in the claims are within the exactly representable range at
the granularity the claims discuss). Awaited external calls (chain RPC,
price feed) become explicit parameters holding the value the call would
produce. Fields that the code reads from environment variables are also
parameters.
-/

namespace Gto

/-! JavaScript numeric helpers, embedded over the rationals. -/

/-- JS Math.floor on a rational value. -/
def jsFloor (x : ℚ) : ℤ := ⌊x⌋

/-- JS Math.round: rounds half toward positive infinity. -/
def jsRound (x : ℚ) : ℤ := ⌊x + 1/2⌋

/-- JS parseFloat(x.toFixed(2)) for a non-negative x: round to two decimal
places, ties away from zero (which for non-negative x is jsRound). -/
def round2 (x : ℚ) : ℚ := (jsRound (x * 100) : ℚ) / 100

/-- JS (s || d) for an optional string s and a non-empty default d: the empty
string is falsy, so it is replaced by the default just like null/undefined. -/
def jsOr (s : Option String) (d : String) : String :=
  match s with
  | some v => if v = "" then d else v
  | none => d

/-! Price Feed Cache (services/exchangeRateService, getUsdtUsdRate).
The in-memory cache entry and the result of one call. The awaited
axios fetch is a parameter: some r means the upstream responded and the
parsed rate field was the number r; none means the request failed, timed
out, or the payload was malformed (all of which throw and are caught).
A rate that is present but not a positive number also throws inside the
try block and lands in the same catch, which the function models by
routing non-positive fetched values to the fallback path. -/

/-- One entry of the module-level cache object, mirroring
cache.usdtUsd = { value, expiresAt }. -/
structure RateCache where
  value : Option ℚ
  expiresAt : ℤ
  deriving DecidableEq, Repr

/-- Result of one getUsdtUsdRate call: the returned rate, whether the
upstream feed was contacted, and the cache state afterwards. -/
structure RateResult where
  rate : ℚ
  networkCalled : Bool
  cache : RateCache
  deriving DecidableEq, Repr

/-- ONE_MINUTE_MS from the source. -/
def oneMinuteMs : ℤ := 60 * 1000

/-- The catch block of getUsdtUsdRate: if USDT_USD_FALLBACK_RATE parses to a
positive number, cache and return it; otherwise cache and return 1.0.
envFallbackRate is none when the variable is unset or does not parse. -/
def usdtFallback (now : ℤ) (envFallbackRate : Option ℚ) : RateResult :=
  match envFallbackRate with
  | some e =>
      if 0 < e then ⟨e, true, ⟨some e, now + oneMinuteMs⟩⟩
      else ⟨1, true, ⟨some 1, now + oneMinuteMs⟩⟩
  | none => ⟨1, true, ⟨some 1, now + oneMinuteMs⟩⟩

/-- The try block of getUsdtUsdRate after a cache miss: contact the feed;
a positive numeric rate is cached with a fresh TTL and returned, anything
else throws into the catch block modelled by usdtFallback. -/
def usdtFetch (now : ℤ) (fetched : Option ℚ) (envFallbackRate : Option ℚ) : RateResult :=
  match fetched with
  | some r =>
      if 0 < r then ⟨r, true, ⟨some r, now + oneMinuteMs⟩⟩
      else usdtFallback now envFallbackRate
  | none => usdtFallback now envFallbackRate

/-- getUsdtUsdRate from the exchange-rate service: an unexpired truthy cached
value is returned with no network call; otherwise the upstream feed is
consulted, falling back to the configured override or 1.0 on failure. -/
def getUsdtUsdRate (cache : RateCache) (now : ℤ) (fetched : Option ℚ)
    (envFallbackRate : Option ℚ) : RateResult :=
  match cache.value with
  | some v =>
      if v ≠ 0 ∧ now < cache.expiresAt then ⟨v, false, cache⟩
      else usdtFetch now fetched envFallbackRate
  | none => usdtFetch now fetched envFallbackRate

/-! Chain verifier for BEP20 (verifyBEP20Transaction in utils/cryptoVerification).
The awaited RPC answers are parameters: the transaction receipt (or none when
getTransactionReceipt returns null), the current head block number, and the
result of the dynamic decimals() read (none when that call throws, in which
case the code falls back to 18). Event-log topics are modelled after decoding:
each log carries its emitting address, first topic, the decoded from/to
addresses of an indexed Transfer event, and the raw integer value of the data
word. The memo inspection in the source only logs a warning and never changes
the returned value, so it does not appear in the embedding. -/

/-- One receipt log entry as the verifier consumes it. -/
structure BscLog where
  address : String
  topic0 : String
  fromTopic : String
  toTopic : String
  dataValue : ℕ
  deriving DecidableEq, Repr

/-- A transaction receipt: status (1 = success, 0 = failed), inclusion block
number, and event logs. -/
structure BscReceipt where
  status : ℕ
  blockNumber : ℤ
  logs : List BscLog
  deriving DecidableEq, Repr

/-- The typed failure conditions of verifyBEP20Transaction; renderBepFail
maps each one to the exact error string the source builds. -/
inductive BepFail
  | notFound
  | txFailed
  | needsConfirmations (required current : ℤ)
  | recipientMismatch (expected got : String)
  | amountTooSmall (got : ℚ)
  | transferEventNotFound
  deriving DecidableEq, Repr

/-- The error strings of verifyBEP20Transaction, one per failure condition. -/
def renderBepFail : BepFail → String
  | .notFound => "Transaction not found on blockchain"
  | .txFailed => "Transaction failed on blockchain"
  | .needsConfirmations required current =>
      "Transaction needs at least " ++ toString required ++
        " confirmations. Current: " ++ toString current
  | .recipientMismatch expected got =>
      "Recipient address mismatch. Expected: " ++ expected ++ ", Got: " ++ got
  | .amountTooSmall got =>
      "Amount too small. Minimum: 0.01 USDT, Got: " ++ toString got.num ++
        "/" ++ toString got.den ++ " USDT"
  | .transferEventNotFound => "USDT Transfer event not found in transaction logs"

/-- The verified: true payload of verifyBEP20Transaction. -/
structure BepSuccess where
  amount : ℚ
  fromAddress : String
  confirmationCount : ℤ
  deriving DecidableEq, Repr

/-- USDT_BSC_CONTRACT from the source. -/
def USDT_BSC_CONTRACT : String := "0x55d398326f99059fF775485246999027B3197955"

/-- The canonical Transfer event signature constant from the source. -/
def transferEventSignature : String :=
  "0xddf252ad1be2c89b69c2b068fc378daa952ba7f163c4a11628f55a4df523b3ef"

/-- minConfirmations for BSC from the source. -/
def minConfirmationsBep : ℤ := 3

/-- The receipt-log loop of verifyBEP20Transaction: find the first Transfer
event emitted by the USDT contract; on it, check the recipient address
case-insensitively, decode the amount with the token decimals, and enforce
the 0.01 USDT dust floor. The loop breaks at the first matching log. -/
def scanUsdtTransferLogs (logs : List BscLog) (expectedToAddress : String)
    (tokenDecimals : ℕ) : Option (Except BepFail (ℚ × String)) :=
  match logs with
  | [] => none
  | log :: rest =>
      if log.address.toLower = USDT_BSC_CONTRACT.toLower ∧
          log.topic0.toLower = transferEventSignature.toLower then
        some
          (if log.toTopic.toLower ≠ expectedToAddress.toLower then
            .error (.recipientMismatch expectedToAddress log.toTopic)
          else
            let actualAmount : ℚ := (log.dataValue : ℚ) / (10 : ℚ) ^ tokenDecimals
            if actualAmount < 1/100 then .error (.amountTooSmall actualAmount)
            else .ok (actualAmount, log.fromTopic))
      else scanUsdtTransferLogs rest expectedToAddress tokenDecimals

/-- verifyBEP20Transaction: receipt lookup, status check, confirmation-depth
floor, then the Transfer-event scan. Except.error e corresponds to the
source returning { verified: false, error: renderBepFail e } and Except.ok
to { verified: true, amount, fromAddress, confirmationCount }. -/
def verifyBEP20Transaction (receipt : Option BscReceipt) (currentBlock : ℤ)
    (decimalsFromContract : Option ℕ) (expectedToAddress : String) :
    Except BepFail BepSuccess :=
  match receipt with
  | none => .error .notFound
  | some r =>
      if r.status ≠ 1 then .error .txFailed
      else
        let confirmationCount := currentBlock - r.blockNumber
        if confirmationCount < minConfirmationsBep then
          .error (.needsConfirmations minConfirmationsBep confirmationCount)
        else
          let tokenDecimals := decimalsFromContract.getD 18
          match scanUsdtTransferLogs r.logs expectedToAddress tokenDecimals with
          | none => .error .transferEventNotFound
          | some (.error e) => .error e
          | some (.ok (amt, fromAddr)) => .ok ⟨amt, fromAddr, confirmationCount⟩

/-! Data model of the payment subsystem, embedded from the mongoose schemas. -/

/-- CryptoPayment.network enum from the schema. -/
inductive Network
  | BEP20
  | SOL
  deriving DecidableEq, Repr

/-- The string stored in documents for a network value. -/
def networkName : Network → String
  | .BEP20 => "BEP20"
  | .SOL => "SOL"

/-- CryptoPayment.status enum from the schema. -/
inductive PayStatus
  | pending
  | processing
  | confirmed
  | failed
  | expired
  deriving DecidableEq, Repr

/-- A CryptoPayment document. Dates are integer millisecond timestamps. -/
structure CryptoPayment where
  paymentId : String
  userId : String
  planId : String
  network : Network
  token : String
  amount : ℚ
  walletAddress : String
  memo : String
  transactionHash : Option String
  status : PayStatus
  expiresAt : ℤ
  confirmedAt : Option ℤ
  verifiedAmount : Option ℚ
  verifiedFromAddress : Option String
  confirmationCount : ℤ
  errorMessage : Option String
  deriving DecidableEq, Repr

/-- cryptoPaymentSchema.methods.isExpired: new Date() > this.expiresAt. -/
def CryptoPayment.isExpired (p : CryptoPayment) (now : ℤ) : Bool :=
  decide (p.expiresAt < now)

/-- cryptoPaymentSchema.methods.confirm. -/
def CryptoPayment.confirm (p : CryptoPayment) (verifiedAmount : ℚ)
    (verifiedFromAddress : Option String) (confirmationCount : ℤ)
    (transactionHash : String) (now : ℤ) : CryptoPayment :=
  { p with
    status := .confirmed
    confirmedAt := some now
    verifiedAmount := some verifiedAmount
    verifiedFromAddress := verifiedFromAddress
    confirmationCount := confirmationCount
    transactionHash := some transactionHash }

/-- cryptoPaymentSchema.methods.fail. -/
def CryptoPayment.fail (p : CryptoPayment) (errorMessage : String) : CryptoPayment :=
  { p with status := .failed, errorMessage := some errorMessage }

/-- A BSON string-or-absent field, distinguishing a missing field, an explicit
null, and a string value; needed to state the partial unique index on
cryptoTransactionHash, whose filter { cryptoTransactionHash: { $type: 'string' } }
matches string values only (null is BSON type 10, string is type 2). -/
inductive BsonStr
  | missing
  | null
  | str (s : String)
  deriving DecidableEq, Repr

/-- The partial filter expression of the unique index on
cryptoTransactionHash: $type: 'string'. -/
def BsonStr.isTypeString : BsonStr → Bool
  | .str _ => true
  | _ => false

/-- A Transaction (ledger) document from the crypto-enabled transaction
schema. amount is in integer cents. -/
structure Transaction where
  id : ℕ
  userId : String
  amount : ℤ
  currency : String
  quotaAmount : ℤ
  status : String
  paymentMethod : String
  description : String
  stripePaymentIntentId : BsonStr
  cryptoTransactionHash : BsonStr
  cryptoNetwork : Option String
  cryptoToken : Option String
  deriving DecidableEq, Repr

/-- The slice of a User document this subsystem reads and writes. -/
structure User where
  id : String
  availableUsage : ℤ
  totalSpent : ℚ
  deriving DecidableEq, Repr

/-- Modelled from the spec: User.addQuota is defined in the User model of the
repository, which is not among the provided sources (only its call sites
are). Spec section 6 gives the user-store contract incrementCredits(userId,
amount): the available credit balance is incremented by the granted quota. -/
def User.addQuota (u : User) (quota : ℤ) : User :=
  { u with availableUsage := u.availableUsage + quota }

/-- A PaymentPlan document (the fields this subsystem reads). -/
structure PaymentPlan where
  id : String
  name : String
  price : ℚ
  quotaAmount : ℤ
  isActive : Bool
  deriving DecidableEq, Repr

/-- The database state: every collection the crypto settlement flow touches,
plus a counter supplying fresh Transaction document ids. -/
structure DB where
  payments : List CryptoPayment
  transactions : List Transaction
  users : List User
  plans : List PaymentPlan
  nextTxnId : ℕ
  deriving DecidableEq, Repr

/-- CryptoPayment.findByPaymentId (findOne on the unique paymentId key). -/
def findByPaymentId (db : DB) (pid : String) : Option CryptoPayment :=
  db.payments.find? (fun p => p.paymentId == pid)

/-- The duplicate-hash query of the route:
CryptoPayment.findOne({ transactionHash, status: confirmed, _id ≠ self });
documents are identified by the unique paymentId. -/
def findDuplicateConfirmed (db : DB) (txnHash : String) (selfPaymentId : String) :
    Option CryptoPayment :=
  db.payments.find? (fun p =>
    p.transactionHash == some txnHash && p.status == PayStatus.confirmed &&
      p.paymentId != selfPaymentId)

/-- Transaction.findOne({ cryptoTransactionHash: txnHash }) with a string
argument: matches exactly the documents holding that string. -/
def findTxnByHash (db : DB) (txnHash : String) : Option Transaction :=
  db.transactions.find? (fun t => t.cryptoTransactionHash == BsonStr.str txnHash)

/-- Persisting a modified CryptoPayment document (document.save()): the
stored document with the same unique paymentId is replaced. -/
def DB.savePayment (db : DB) (p : CryptoPayment) : DB :=
  { db with payments := db.payments.map (fun q => if q.paymentId == p.paymentId then p else q) }

/-- Persisting a modified User document. -/
def DB.saveUser (db : DB) (u : User) : DB :=
  { db with users := db.users.map (fun v => if v.id == u.id then u else v) }

/-- USD_PER_CREDIT from the route: 0.45. -/
def usdPerCredit : ℚ := 45/100

/-- The response bodies of POST /api/payments/verify-crypto-transaction.
ok and alreadyProcessedOk are the success: true shapes; alreadyConfirmed and
duplicateHash are the HTTP-200 bodies with success: false and
alreadyProcessed: true; serverError is the catch-all HTTP-500 body (the
route catches any thrown error, including a mongoose ValidationError from
Transaction.create, and answers with Failed to verify crypto transaction);
the rest are the 4xx error bodies. -/
inductive Response
  | missingFields
  | paymentNotFound
  | accessDenied
  | alreadyConfirmed
  | duplicateHash
  | expired
  | verificationFailed (error : String)
  | planNotFound
  | userNotFound
  | insufficientAmount (usdValue minRequired : ℚ)
  | alreadyProcessedOk (quotaAdded newAvailableUsage : ℤ) (transactionId : ℕ)
      (amount : ℚ) (confirmations : ℤ)
  | ok (quotaAdded newAvailableUsage : ℤ) (transactionId : ℕ)
      (amount : ℚ) (confirmations : ℤ)
  | serverError
  deriving DecidableEq, Repr

/-- What the awaited chain verifier produced: the verified payload or the
failure with its optional error string (result.error). -/
inductive VerifyOutcome
  | ok (amount : ℚ) (fromAddress : Option String) (confirmationCount : ℤ)
  | fail (error : Option String)
  deriving DecidableEq, Repr

/-- The default message substituted for a missing verifier error string,
per network (result.error || '<NETWORK> verification failed'). -/
def verifyFailDefault : Network → String
  | .BEP20 => "BEP20 verification failed"
  | .SOL => "SOL verification failed"

/-- One persistence effect of the handler, in execution order. -/
inductive DbEvent
  | savePayment (p : CryptoPayment)
  | saveUser (u : User)
  | createTxn (t : Transaction)
  deriving DecidableEq, Repr

/-- The outcome of one verify-crypto-transaction request: the response body,
the database afterwards, and the ordered persistence effects. -/
structure VerifyResult where
  response : Response
  db : DB
  events : List DbEvent
  deriving DecidableEq, Repr

/-- The enum validator of the transactionSchema field cryptoNetwork:
enum ['SOL', 'USDT', 'USDC', null]. A null or absent value passes; a string
value passes exactly when it is one of the three listed strings. Note the
route stores cryptoPayment.network here, and the network value BEP20 is not
in this list, so creating a Transaction for a BEP20 settlement fails
validation. -/
def cryptoNetworkEnumOk (v : Option String) : Bool :=
  match v with
  | none => true
  | some s => s == "SOL" || s == "USDT" || s == "USDC"

/-- Lines 1545-1679 of the route: mark the payment confirmed and save, look
up plan and user, convert the verified on-chain amount to credits at the
fetched rate (the SOL and BEP20 branches are textually identical apart from
which rate service is awaited; rate carries that awaited value), guard
against an existing ledger Transaction for the hash, then create the
Transaction, grant quota and record spend. Transaction.create runs the
schema validators: when the document violates the cryptoNetwork enum (the
BEP20 case) it throws a ValidationError, which the route catch turns into
the HTTP-500 serverError body with no ledger record and no quota grant (the
earlier document saves have already been persisted). The remaining schema
rules hold on this path: quotaAmount is at least 1 by the credits guard and
amount is then non-negative. p is the processing-state document,
a/fromA/conf the verificationData fields, tVerify the clock reading when
confirm() runs. -/
def settleConfirmed (db : DB) (p : CryptoPayment) (uid txnHash : String)
    (a : ℚ) (fromA : Option String) (conf : ℤ) (rate : ℚ) (tVerify : ℤ) :
    VerifyResult :=
  let p1 := p.confirm a fromA conf txnHash tVerify
  let db1 := db.savePayment p1
  match db1.plans.find? (fun pl => pl.id == p.planId) with
  | none => ⟨.planNotFound, db1, [.savePayment p1]⟩
  | some plan =>
    match db1.users.find? (fun u => u.id == uid) with
    | none => ⟨.userNotFound, db1, [.savePayment p1]⟩
    | some user =>
      let usdAmount := a * rate
      let dynamicCredits := jsFloor (usdAmount / usdPerCredit)
      if dynamicCredits ≤ 0 then
        ⟨.insufficientAmount usdAmount usdPerCredit, db1, [.savePayment p1]⟩
      else
        let p2 := { p1 with amount := round2 usdAmount }
        let db2 := db1.savePayment p2
        match findTxnByHash db2 txnHash with
        | some t =>
            ⟨.alreadyProcessedOk t.quotaAmount user.availableUsage t.id
              ((t.amount : ℚ) / 100) conf, db2,
              [.savePayment p1, .savePayment p2]⟩
        | none =>
            let txn : Transaction :=
              { id := db2.nextTxnId
                userId := uid
                amount := jsRound (usdAmount * 100)
                currency := "usd"
                quotaAmount := dynamicCredits
                status := "succeeded"
                paymentMethod := "crypto"
                description := "Purchase " ++ toString dynamicCredits ++
                  " credits via " ++ networkName p.network ++
                  " (dynamic rate) - " ++ plan.name
                stripePaymentIntentId := .missing
                cryptoTransactionHash := .str txnHash
                cryptoNetwork := some (networkName p.network)
                cryptoToken := some p.token }
            if cryptoNetworkEnumOk txn.cryptoNetwork then
              let db3 := { db2 with
                transactions := txn :: db2.transactions
                nextTxnId := db2.nextTxnId + 1 }
              let user1 := ({ user with totalSpent := user.totalSpent + usdAmount
                            } : User).addQuota dynamicCredits
              let db4 := db3.saveUser user1
              ⟨.ok dynamicCredits user1.availableUsage txn.id usdAmount conf,
                db4,
                [.savePayment p1, .savePayment p2, .createTxn txn, .saveUser user1]⟩
            else
              ⟨.serverError, db2, [.savePayment p1, .savePayment p2]⟩

/-- POST /api/payments/verify-crypto-transaction. uid is the authenticated
user id; paymentId/txnHash are the request body fields (none or the empty
string are both falsy and rejected); vo is what the awaited chain verifier
returned; rate is what the awaited rate service returned; tSubmit is the
clock reading at the isExpired() check and tVerify the one when confirm()
runs after verification. -/
def verifyCryptoTransaction (db : DB) (uid : String)
    (paymentId txnHash : Option String) (vo : VerifyOutcome) (rate : ℚ)
    (tSubmit tVerify : ℤ) : VerifyResult :=
  if paymentId.getD "" = "" ∨ txnHash.getD "" = "" then ⟨.missingFields, db, []⟩
  else
    let pid := paymentId.getD ""
    let h := txnHash.getD ""
    match findByPaymentId db pid with
    | none => ⟨.paymentNotFound, db, []⟩
    | some p =>
      if p.userId ≠ uid then ⟨.accessDenied, db, []⟩
      else if p.status = .confirmed then ⟨.alreadyConfirmed, db, []⟩
      else
        match findDuplicateConfirmed db h p.paymentId with
        | some _ => ⟨.duplicateHash, db, []⟩
        | none =>
          if p.isExpired tSubmit then
            let pExp := { p with status := PayStatus.expired }
            ⟨.expired, db.savePayment pExp, [.savePayment pExp]⟩
          else
            let pProc := { p with status := PayStatus.processing, transactionHash := some h }
            let db1 := db.savePayment pProc
            match vo with
            | .fail e =>
                let msg := jsOr e (verifyFailDefault p.network)
                let pFail := pProc.fail msg
                ⟨.verificationFailed msg, db1.savePayment pFail,
                  [.savePayment pProc, .savePayment pFail]⟩
            | .ok a fromA conf =>
                let r := settleConfirmed db1 pProc uid h a fromA conf rate tVerify
                ⟨r.response, r.db, .savePayment pProc :: r.events⟩

/-- The zero placeholder BEP20 wallet address from the route:
0x followed by forty zero characters. -/
def zeroBepWallet : String := "0x" ++ String.mk (List.replicate 40 '0')

/-- The zero placeholder SOL wallet address: forty-four zero characters. -/
def zeroSolWallet : String := String.mk (List.replicate 44 '0')

/-- The response bodies of POST /api/payments/create-crypto-payment that the
embedding distinguishes (the invalid-network branch is unreachable with the
typed Network argument). -/
inductive CreateResponse
  | planNotFound
  | userNotFound
  | notConfigured
  | ok (p : CryptoPayment)
  deriving DecidableEq, Repr

/-- JS s.slice(-6): the last six characters of s. -/
def sliceLast6 (s : String) : String :=
  String.mk (s.data.drop (s.data.length - 6))

/-- POST /api/payments/create-crypto-payment: plan and user validation, wallet
configuration check (a zero placeholder address is refused), memo derivation,
expiry assignment, and creation of the pending CryptoPayment with
amount := plan.price. paymentId and wallet are parameters standing for the
generated id and the configured wallet address; now is the clock reading and
expiryMinutes the parsed CRYPTO_PAYMENT_EXPIRY_MINUTES (default 30). -/
def createCryptoPayment (db : DB) (uid planIdReq : String) (network : Network)
    (paymentId wallet : String) (now expiryMinutes : ℤ) :
    CreateResponse × DB :=
  match db.plans.find? (fun pl => pl.id == planIdReq) with
  | none => (.planNotFound, db)
  | some plan =>
    if plan.isActive = false then (.planNotFound, db)
    else
      match db.users.find? (fun u => u.id == uid) with
      | none => (.userNotFound, db)
      | some _user =>
        let token := match network with
          | .BEP20 => "USDT"
          | .SOL => "SOL"
        if wallet = "" ∨ wallet = zeroBepWallet ∨ wallet = zeroSolWallet then
          (.notConfigured, db)
        else
          let memo := "TXN-" ++ sliceLast6 uid ++ "-" ++ sliceLast6 paymentId
          let p : CryptoPayment :=
            { paymentId := paymentId
              userId := uid
              planId := plan.id
              network := network
              token := token
              amount := plan.price
              walletAddress := wallet
              memo := memo
              transactionHash := none
              status := .pending
              expiresAt := now + expiryMinutes * 60 * 1000
              confirmedAt := none
              verifiedAmount := none
              verifiedFromAddress := none
              confirmationCount := 0
              errorMessage := none }
          (.ok p, { db with payments := p :: db.payments })

/-- The reachable database states of the model: starting from the empty
database, any interleaving of user/plan registration, crypto payment
creation, verify-crypto-transaction requests, and settlements from the
non-crypto (card) flows, which create Transaction documents whose
cryptoTransactionHash is never a string. -/
inductive Reachable : DB → Prop
  | init : Reachable ⟨[], [], [], [], 0⟩
  | addUser (db : DB) (u : User) : Reachable db →
      Reachable { db with users := u :: db.users }
  | addPlan (db : DB) (pl : PaymentPlan) : Reachable db →
      Reachable { db with plans := pl :: db.plans }
  | create (db : DB) (uid planIdReq : String) (network : Network)
      (paymentId wallet : String) (now expiryMinutes : ℤ) : Reachable db →
      Reachable (createCryptoPayment db uid planIdReq network paymentId wallet
        now expiryMinutes).2
  | verify (db : DB) (uid : String) (paymentId txnHash : Option String)
      (vo : VerifyOutcome) (rate : ℚ) (tSubmit tVerify : ℤ) : Reachable db →
      Reachable (verifyCryptoTransaction db uid paymentId txnHash vo rate
        tSubmit tVerify).db
  | nonCryptoTxn (db : DB) (t : Transaction) : Reachable db →
      t.cryptoTransactionHash.isTypeString = false →
      Reachable { db with transactions := t :: db.transactions,
                          nextTxnId := db.nextTxnId + 1 }

/-- At most one ledger Transaction per distinct on-chain transaction hash. -/
def uniqueCryptoHashes (l : List Transaction) : Prop :=
  ∀ s : String, l.countP (fun t => t.cryptoTransactionHash == BsonStr.str s) ≤ 1

/-! Structural helper lemmas. -/

theorem savePayment_transactions (db : DB) (p : CryptoPayment) :
    (db.savePayment p).transactions = db.transactions := rfl

theorem savePayment_users (db : DB) (p : CryptoPayment) :
    (db.savePayment p).users = db.users := rfl

theorem savePayment_plans (db : DB) (p : CryptoPayment) :
    (db.savePayment p).plans = db.plans := rfl

theorem find?_map_replace {α : Type} (key : α → String) (l : List α) (k : String)
    (q p : α) (hfind : l.find? (fun x => key x == k) = some q)
    (hkey : key p = key q) :
    (l.map (fun x => if key x == key p then p else x)).find?
      (fun x => key x == k) = some p := by
  induction l with
  | nil => simp at hfind
  | cons y ys ih =>
      rw [List.find?_cons] at hfind
      rw [List.map_cons, List.find?_cons]
      by_cases hy : (key y == k) = true
      · simp only [hy] at hfind
        have hq : q = y := (Option.some.inj hfind).symm
        have hyp : (key y == key p) = true := by
          rw [hkey, hq]
          exact beq_self_eq_true _
        rw [if_pos hyp]
        have hpk : (key p == k) = true := by
          rw [hkey, hq]
          exact hy
        simp [hpk]
      · have hy' : (key y == k) = false := by
          cases hb : (key y == k)
          · rfl
          · exact absurd hb hy
        simp only [hy'] at hfind
        have hqk : (key q == k) = true := by
          simpa using List.find?_some hfind
        have hyq : ¬ ((key y == key p) = true) := by
          intro hcontra
          apply hy
          rw [beq_iff_eq] at hcontra
          rw [hcontra, hkey]
          exact hqk
        rw [if_neg hyq]
        simp only [hy']
        exact ih hfind

theorem findByPaymentId_savePayment (db : DB) (pid : String) (q p : CryptoPayment)
    (hfind : findByPaymentId db pid = some q) (hkey : p.paymentId = q.paymentId) :
    findByPaymentId (db.savePayment p) pid = some p := by
  unfold findByPaymentId DB.savePayment at *
  exact find?_map_replace (fun x => x.paymentId) db.payments pid q p hfind hkey

theorem findUser_saveUser (db : DB) (k : String) (q p : User)
    (hfind : db.users.find? (fun u => u.id == k) = some q) (hkey : p.id = q.id) :
    (db.saveUser p).users.find? (fun u => u.id == k) = some p := by
  unfold DB.saveUser at *
  exact find?_map_replace (fun u => u.id) db.users k q p hfind hkey

/-! The transaction collection changes of one request: either untouched, or
extended by exactly one document carrying the submitted hash, created only
after the duplicate-hash query found nothing. -/

theorem settle_txns_cases (db : DB) (p : CryptoPayment) (uid h : String)
    (a : ℚ) (fA : Option String) (conf : ℤ) (rate : ℚ) (tV : ℤ) :
    (settleConfirmed db p uid h a fA conf rate tV).db.transactions
        = db.transactions ∨
    ∃ t, (settleConfirmed db p uid h a fA conf rate tV).db.transactions
          = t :: db.transactions ∧
      t.cryptoTransactionHash = .str h ∧
      findTxnByHash db h = none := by
  simp only [settleConfirmed]
  split
  · exact Or.inl rfl
  · split
    · exact Or.inl rfl
    · split
      · exact Or.inl rfl
      · rename_i hcred
        split
        · exact Or.inl rfl
        · rename_i hnone
          split
          · exact Or.inr ⟨_, rfl, rfl, hnone⟩
          · exact Or.inl rfl

theorem verify_txns_cases (db : DB) (uid : String)
    (paymentId txnHash : Option String) (vo : VerifyOutcome) (rate : ℚ)
    (tS tV : ℤ) :
    (verifyCryptoTransaction db uid paymentId txnHash vo rate tS tV).db.transactions
        = db.transactions ∨
    ∃ t, (verifyCryptoTransaction db uid paymentId txnHash vo rate tS tV).db.transactions
          = t :: db.transactions ∧
      t.cryptoTransactionHash = .str (txnHash.getD "") ∧
      findTxnByHash db (txnHash.getD "") = none := by
  simp only [verifyCryptoTransaction]
  split
  · exact Or.inl rfl
  · split
    · exact Or.inl rfl
    · split
      · exact Or.inl rfl
      · split
        · exact Or.inl rfl
        · split
          · exact Or.inl rfl
          · split
            · exact Or.inl rfl
            · split
              · exact Or.inl rfl
              · exact settle_txns_cases _ _ _ _ _ _ _ _ _

theorem createCryptoPayment_transactions (db : DB) (uid planIdReq : String)
    (network : Network) (paymentId wallet : String) (now expiryMinutes : ℤ) :
    (createCryptoPayment db uid planIdReq network paymentId wallet now
      expiryMinutes).2.transactions = db.transactions := by
  simp only [createCryptoPayment]
  split
  · rfl
  · split
    · rfl
    · split
      · rfl
      · split
        · rfl
        · rfl

theorem uniqueCryptoHashes_cons_new (l : List Transaction) (t : Transaction)
    (h : String) (hl : uniqueCryptoHashes l) (ht : t.cryptoTransactionHash = .str h)
    (hnone : l.find? (fun x => x.cryptoTransactionHash == BsonStr.str h) = none) :
    uniqueCryptoHashes (t :: l) := by
  intro s
  rw [List.countP_cons]
  by_cases hs : s = h
  · subst hs
    have h0 : l.countP (fun x => x.cryptoTransactionHash == BsonStr.str s) = 0 := by
      rw [List.countP_eq_zero]
      intro x hx
      exact List.find?_eq_none.mp hnone x hx
    rw [h0]
    split <;> omega
  · have hf : (t.cryptoTransactionHash == BsonStr.str s) = false := by
      rw [ht, beq_eq_false_iff_ne]
      intro hcontra
      exact hs (BsonStr.str.inj hcontra).symm
    simp only [hf, Bool.false_eq_true, if_false, ite_false, Nat.add_zero]
    exact hl s

theorem uniqueCryptoHashes_cons_nonstr (l : List Transaction) (t : Transaction)
    (hl : uniqueCryptoHashes l) (ht : t.cryptoTransactionHash.isTypeString = false) :
    uniqueCryptoHashes (t :: l) := by
  intro s
  rw [List.countP_cons]
  have hf : (t.cryptoTransactionHash == BsonStr.str s) = false := by
    cases hh : t.cryptoTransactionHash <;>
      simp_all [BsonStr.isTypeString]
  simp only [hf, Bool.false_eq_true, if_false, ite_false, Nat.add_zero]
  exact hl s

theorem reachable_uniqueCryptoHashes (db : DB) (hdb : Reachable db) :
    uniqueCryptoHashes db.transactions := by
  induction hdb with
  | init => intro s; simp
  | addUser db u _ ih => exact ih
  | addPlan db pl _ ih => exact ih
  | create db uid planIdReq network paymentId wallet now expiryMinutes _ ih =>
      rw [createCryptoPayment_transactions]
      exact ih
  | verify db uid paymentId txnHash vo rate tSubmit tVerify _ ih =>
      rcases verify_txns_cases db uid paymentId txnHash vo rate tSubmit tVerify with
        heq | ⟨t, heq, ht, hnone⟩
      · rw [heq]; exact ih
      · rw [heq]
        exact uniqueCryptoHashes_cons_new _ _ _ ih ht hnone
  | nonCryptoTxn db t _ hstr ih =>
      exact uniqueCryptoHashes_cons_nonstr _ _ ih hstr

theorem findTxnByHash_savePayment (db : DB) (p : CryptoPayment) (h : String) :
    findTxnByHash (db.savePayment p) h = findTxnByHash db h := rfl

/-! The two outcomes of the settlement stage once a verified payload is in
hand: the normal commit, and the insufficient-amount rejection. -/

theorem settle_ok_run (db : DB) (p : CryptoPayment) (uid h : String) (a : ℚ)
    (fA : Option String) (conf : ℤ) (rate : ℚ) (tV : ℤ) (plan : PaymentPlan)
    (user : User)
    (hplan : db.plans.find? (fun pl => pl.id == p.planId) = some plan)
    (huser : db.users.find? (fun u => u.id == uid) = some user)
    (hcred : 1 ≤ jsFloor (a * rate / usdPerCredit))
    (htxn : findTxnByHash db h = none)
    (hnet : cryptoNetworkEnumOk (some (networkName p.network)) = true) :
    settleConfirmed db p uid h a fA conf rate tV =
      (let p1 := p.confirm a fA conf h tV
      let p2 := { p1 with amount := round2 (a * rate) }
      let credits := jsFloor (a * rate / usdPerCredit)
      let txn : Transaction :=
        { id := db.nextTxnId
          userId := uid
          amount := jsRound (a * rate * 100)
          currency := "usd"
          quotaAmount := credits
          status := "succeeded"
          paymentMethod := "crypto"
          description := "Purchase " ++ toString credits ++ " credits via " ++
            networkName p.network ++ " (dynamic rate) - " ++ plan.name
          stripePaymentIntentId := .missing
          cryptoTransactionHash := .str h
          cryptoNetwork := some (networkName p.network)
          cryptoToken := some p.token }
      let user1 := ({ user with totalSpent := user.totalSpent + a * rate } : User).addQuota credits
      ⟨.ok credits user1.availableUsage txn.id (a * rate) conf,
        ({ ((db.savePayment p1).savePayment p2) with
            transactions := txn :: db.transactions
            nextTxnId := db.nextTxnId + 1 } : DB).saveUser user1,
        [.savePayment p1, .savePayment p2, .createTxn txn, .saveUser user1]⟩) := by
  have hc : ¬ (jsFloor (a * rate / usdPerCredit) ≤ 0) := by omega
  simp only [settleConfirmed, savePayment_plans, savePayment_users,
    findTxnByHash_savePayment, hplan, huser, htxn]
  rw [if_neg hc]
  rw [if_pos hnet]
  rfl

/-- The settlement commit path for a network value outside the
transactionSchema cryptoNetwork enum (the BEP20 case): Transaction.create
throws a ValidationError and the route answers with the catch-all 500; the
confirm and amount-overwrite saves have already been persisted, no ledger
record exists and no quota is granted. -/
theorem settle_enum_reject_run (db : DB) (p : CryptoPayment) (uid h : String)
    (a : ℚ) (fA : Option String) (conf : ℤ) (rate : ℚ) (tV : ℤ)
    (plan : PaymentPlan) (user : User)
    (hplan : db.plans.find? (fun pl => pl.id == p.planId) = some plan)
    (huser : db.users.find? (fun u => u.id == uid) = some user)
    (hcred : 1 ≤ jsFloor (a * rate / usdPerCredit))
    (htxn : findTxnByHash db h = none)
    (hnet : cryptoNetworkEnumOk (some (networkName p.network)) = false) :
    settleConfirmed db p uid h a fA conf rate tV =
      (let p1 := p.confirm a fA conf h tV
      let p2 := { p1 with amount := round2 (a * rate) }
      ⟨.serverError, (db.savePayment p1).savePayment p2,
        [.savePayment p1, .savePayment p2]⟩) := by
  have hc : ¬ (jsFloor (a * rate / usdPerCredit) ≤ 0) := by omega
  simp only [settleConfirmed, savePayment_plans, savePayment_users,
    findTxnByHash_savePayment, hplan, huser, htxn]
  rw [if_neg hc]
  rw [if_neg (by simp [hnet])]

theorem settle_dust_run (db : DB) (p : CryptoPayment) (uid h : String) (a : ℚ)
    (fA : Option String) (conf : ℤ) (rate : ℚ) (tV : ℤ) (plan : PaymentPlan)
    (user : User)
    (hplan : db.plans.find? (fun pl => pl.id == p.planId) = some plan)
    (huser : db.users.find? (fun u => u.id == uid) = some user)
    (hcred : jsFloor (a * rate / usdPerCredit) ≤ 0) :
    settleConfirmed db p uid h a fA conf rate tV =
      ⟨.insufficientAmount (a * rate) usdPerCredit,
        db.savePayment (p.confirm a fA conf h tV),
        [.savePayment (p.confirm a fA conf h tV)]⟩ := by
  simp only [settleConfirmed, savePayment_plans, savePayment_users, hplan, huser]
  rw [if_pos hcred]

/-- A request that passes every guard (fields present, payment found and
owned, not yet confirmed, hash not already on another confirmed payment, not
expired at submission time) with a verified chain result reaches the
settlement stage on the processing-state document. -/
theorem verify_reaches_settle (db : DB) (p : CryptoPayment) (uid pid h : String)
    (a : ℚ) (fA : Option String) (conf : ℤ) (rate : ℚ) (tS tV : ℤ)
    (hpid : pid ≠ "") (hh : h ≠ "")
    (hfind : findByPaymentId db pid = some p)
    (howner : p.userId = uid)
    (hnconf : p.status ≠ .confirmed)
    (hdup : findDuplicateConfirmed db h p.paymentId = none)
    (hexp : ¬ (p.expiresAt < tS)) :
    verifyCryptoTransaction db uid (some pid) (some h) (.ok a fA conf) rate tS tV =
      (let pProc := { p with status := PayStatus.processing, transactionHash := some h }
      let r := settleConfirmed (db.savePayment pProc) pProc uid h a fA conf rate tV
      ⟨r.response, r.db, .savePayment pProc :: r.events⟩) := by
  simp only [verifyCryptoTransaction, Option.getD_some, hfind, hdup]
  rw [if_neg (by simp [hpid, hh])]
  rw [if_neg (by simp [howner])]
  rw [if_neg hnconf]
  rw [if_neg (by simp [CryptoPayment.isExpired, hexp])]

/-- A request that passes every guard but whose chain verifier reported a
failure: the record is saved as processing, then saved as failed with the
error message, and the verification-failed body is returned. -/
theorem verify_fail_run (db : DB) (p : CryptoPayment) (uid pid h : String)
    (e : Option String) (rate : ℚ) (tS tV : ℤ)
    (hpid : pid ≠ "") (hh : h ≠ "")
    (hfind : findByPaymentId db pid = some p)
    (howner : p.userId = uid)
    (hnconf : p.status ≠ .confirmed)
    (hdup : findDuplicateConfirmed db h p.paymentId = none)
    (hexp : ¬ (p.expiresAt < tS)) :
    verifyCryptoTransaction db uid (some pid) (some h) (.fail e) rate tS tV =
      ⟨.verificationFailed (jsOr e (verifyFailDefault p.network)),
        (db.savePayment
          { p with status := PayStatus.processing, transactionHash := some h }).savePayment
          (CryptoPayment.fail
            { p with status := PayStatus.processing, transactionHash := some h }
            (jsOr e (verifyFailDefault p.network))),
        [.savePayment { p with status := PayStatus.processing, transactionHash := some h },
          .savePayment (CryptoPayment.fail
            { p with status := PayStatus.processing, transactionHash := some h }
            (jsOr e (verifyFailDefault p.network)))]⟩ := by
  simp only [verifyCryptoTransaction, Option.getD_some, hfind, hdup]
  rw [if_neg (by simp [hpid, hh])]
  rw [if_neg (by simp [howner])]
  rw [if_neg hnconf]
  rw [if_neg (by simp [CryptoPayment.isExpired, hexp])]

/-- The settlement response never reads the clock: the expiry time and the
verification-completion time play no part after the submission check, so the
returned body is the same whichever instant confirm() runs at. -/
theorem settle_response_indep (db : DB) (p : CryptoPayment) (uid h : String)
    (a : ℚ) (fA : Option String) (conf : ℤ) (rate : ℚ) (tV tW : ℤ) :
    (settleConfirmed db p uid h a fA conf rate tV).response
      = (settleConfirmed db p uid h a fA conf rate tW).response := by
  simp only [settleConfirmed, savePayment_plans, savePayment_users,
    findTxnByHash_savePayment]
  split
  · rfl
  · split
    · rfl
    · split
      · rfl
      · split
        · rfl
        · split
          · rfl
          · rfl

/-- The settlement stage never answers with the already-confirmed body:
that body is produced only by the status guard before it. -/
theorem settle_response_not_alreadyConfirmed (db : DB) (p : CryptoPayment)
    (uid h : String) (a : ℚ) (fA : Option String) (conf : ℤ) (rate : ℚ)
    (tV : ℤ) :
    (settleConfirmed db p uid h a fA conf rate tV).response
      ≠ Response.alreadyConfirmed := by
  simp only [settleConfirmed]
  split
  · simp
  · split
    · simp
    · split
      · simp
      · split
        · simp
        · split
          · simp
          · simp

/-! Concrete scenario data used by the counterexamples and witnesses:
one user with 40 credits, one active 10 USD plan, and payment requests
created and settled through the embedded route handlers. -/

def userA : User := ⟨"user1", 40, 0⟩

def planA : PaymentPlan := ⟨"plan1", "Starter", 10, 50, true⟩

def dbUP : DB := ⟨[], [], [userA], [planA], 0⟩

def dbBase : DB :=
  (createCryptoPayment dbUP "user1" "plan1" .BEP20 "crypto-1" "0xWALLET" 0 30).2

/-- The pending BEP20 payment request that createCryptoPayment stores in
dbBase, written out. -/
def payBase : CryptoPayment :=
  { paymentId := "crypto-1", userId := "user1", planId := "plan1",
    network := .BEP20, token := "USDT", amount := 10,
    walletAddress := "0xWALLET", memo := "TXN-user1-ypto-1",
    transactionHash := none, status := .pending, expiresAt := 1800000,
    confirmedAt := none, verifiedAmount := none, verifiedFromAddress := none,
    confirmationCount := 0, errorMessage := none }

/-- First settlement call: 10 USDT verified with 5 confirmations at rate 1. -/
def run1 : VerifyResult :=
  verifyCryptoTransaction dbBase "user1" (some "crypto-1") (some "0xHASH")
    (.ok 10 (some "0xsender") 5) 1 500 600

/-- Retry of the same request against the resulting state. -/
def run2 : VerifyResult :=
  verifyCryptoTransaction run1.db "user1" (some "crypto-1") (some "0xHASH")
    (.ok 10 (some "0xsender") 5) 1 700 800

/-! SOL scenario: the network on which the settlement commit actually
passes the Transaction schema validation. -/

def dbSolBase : DB :=
  (createCryptoPayment dbUP "user1" "plan1" .SOL "crypto-2" "SOLWALLET" 0 30).2

/-- The pending SOL payment request stored in dbSolBase, written out. -/
def paySol : CryptoPayment :=
  { paymentId := "crypto-2", userId := "user1", planId := "plan1",
    network := .SOL, token := "SOL", amount := 10,
    walletAddress := "SOLWALLET", memo := "TXN-user1-ypto-2",
    transactionHash := none, status := .pending, expiresAt := 1800000,
    confirmedAt := none, verifiedAmount := none, verifiedFromAddress := none,
    confirmationCount := 0, errorMessage := none }

/-- Settlement attempt for 0.01 SOL verified at SOL/USD rate 20. -/
def runSol : VerifyResult :=
  verifyCryptoTransaction dbSolBase "user1" (some "crypto-2") (some "SIG1")
    (.ok (1/100) (some "sender") 40) 20 500 600

/-- First SOL settlement call: 1 SOL verified with 40 confirmations at
SOL/USD rate 20, yielding 20 USD and 44 credits. -/
def run1Sol : VerifyResult :=
  verifyCryptoTransaction dbSolBase "user1" (some "crypto-2") (some "SIG1")
    (.ok 1 (some "sender") 40) 20 500 600

/-- Retry of the same SOL request against the settled state. -/
def run2Sol : VerifyResult :=
  verifyCryptoTransaction run1Sol.db "user1" (some "crypto-2") (some "SIG1")
    (.ok 1 (some "sender") 40) 20 700 800

theorem dbBase_reachable : Reachable dbBase :=
  Reachable.create dbUP "user1" "plan1" .BEP20 "crypto-1" "0xWALLET" 0 30
    (Reachable.addPlan ⟨[], [], [userA], [], 0⟩ planA
      (Reachable.addUser ⟨[], [], [], [], 0⟩ userA Reachable.init))

theorem run1_reachable : Reachable run1.db :=
  Reachable.verify dbBase "user1" (some "crypto-1") (some "0xHASH")
    (.ok 10 (some "0xsender") 5) 1 500 600 dbBase_reachable

/-! Claim theorems. -/

/-- C1: in every reachable database state at most one ledger Transaction
exists per distinct on-chain transaction hash; the partial filter of the
unique index on cryptoTransactionHash applies exactly when that field is a
non-null string; and when the settlement stage finds an existing Transaction
carrying the submitted hash it answers with the prior settlement payload
(that record holds quotaAmount and document id) instead of creating a second
record or touching any user balance. -/
theorem c1_ledger_hash_unique (db : DB) (hdb : Reachable db) :
    uniqueCryptoHashes db.transactions ∧
    (∀ t : Transaction, t.cryptoTransactionHash.isTypeString = true ↔
      ∃ s, t.cryptoTransactionHash = BsonStr.str s) ∧
    (∀ (dbp : DB) (p : CryptoPayment) (uid h : String) (a : ℚ)
      (fA : Option String) (conf : ℤ) (rate : ℚ) (tV : ℤ)
      (plan : PaymentPlan) (user : User) (t : Transaction),
      dbp.plans.find? (fun pl => pl.id == p.planId) = some plan →
      dbp.users.find? (fun u => u.id == uid) = some user →
      1 ≤ jsFloor (a * rate / usdPerCredit) →
      findTxnByHash dbp h = some t →
      (settleConfirmed dbp p uid h a fA conf rate tV).response =
        Response.alreadyProcessedOk t.quotaAmount user.availableUsage t.id
          ((t.amount : ℚ) / 100) conf ∧
      (settleConfirmed dbp p uid h a fA conf rate tV).db.transactions =
        dbp.transactions ∧
      (settleConfirmed dbp p uid h a fA conf rate tV).db.users = dbp.users) := by
  refine ⟨reachable_uniqueCryptoHashes db hdb, ?_, ?_⟩
  · intro t
    cases ht : t.cryptoTransactionHash <;> simp [BsonStr.isTypeString]
  · intro dbp p uid h a fA conf rate tV plan user t hplan huser hcred hfound
    have hc : ¬ (jsFloor (a * rate / usdPerCredit) ≤ 0) := by omega
    simp only [settleConfirmed, savePayment_plans, savePayment_users,
      findTxnByHash_savePayment, hplan, huser, hfound]
    rw [if_neg hc]
    exact ⟨rfl, rfl, rfl⟩

/-- C1 witness: a concrete reachable state holding one settled crypto
transaction, at which the uniqueness invariant is instantiated. -/
theorem c1_ledger_hash_unique_witness :
    Reachable run1.db ∧ uniqueCryptoHashes run1.db.transactions :=
  ⟨run1_reachable, (c1_ledger_hash_unique run1.db run1_reachable).1⟩

/-- C2 (amended): once a payment record is confirmed, any further
verify-crypto-transaction call on it short-circuits at the status guard: it
creates nothing, saves nothing, and returns the HTTP-200 already-processed
body with success false, which is a different shape from the success
responses and carries neither quotaAdded nor transactionId. -/
theorem c2_second_call_short_circuits (db : DB) (p : CryptoPayment)
    (uid pid h : String) (vo : VerifyOutcome) (rate : ℚ) (tS tV : ℤ)
    (hpid : pid ≠ "") (hh : h ≠ "")
    (hfind : findByPaymentId db pid = some p)
    (howner : p.userId = uid)
    (hconf : p.status = .confirmed) :
    (verifyCryptoTransaction db uid (some pid) (some h) vo rate tS tV).response
        = Response.alreadyConfirmed ∧
    (verifyCryptoTransaction db uid (some pid) (some h) vo rate tS tV).db = db ∧
    (verifyCryptoTransaction db uid (some pid) (some h) vo rate tS tV).events = [] ∧
    (∀ q n tid amt c, Response.alreadyConfirmed ≠ Response.ok q n tid amt c) ∧
    (∀ q n tid amt c,
      Response.alreadyConfirmed ≠ Response.alreadyProcessedOk q n tid amt c) := by
  have hrun : verifyCryptoTransaction db uid (some pid) (some h) vo rate tS tV =
      ⟨.alreadyConfirmed, db, []⟩ := by
    simp only [verifyCryptoTransaction, Option.getD_some, hfind]
    rw [if_neg (by simp [hpid, hh])]
    rw [if_neg (by simp [howner])]
    rw [if_pos hconf]
  refine ⟨by rw [hrun], by rw [hrun], by rw [hrun], ?_, ?_⟩ <;>
    · intro q n tid amt c
      simp

unseal Rat.mul Rat.inv Rat.add Rat.sub in
/-- C2 counterexample: after a genuine first settlement — a SOL payment, the
network whose Transaction document passes the schema validation — the first
call answers the success payload with quotaAdded 44 and transaction id 0,
and the second call with the same arguments leaves the ledger untouched but
answers with the success-false already-confirmed body, not the original
success payload. -/
theorem c2_counterexample :
    run1Sol.response = Response.ok 44 84 0 20 40 ∧
    run2Sol.response = Response.alreadyConfirmed ∧
    run2Sol.db.transactions = run1Sol.db.transactions ∧
    (∀ q n tid amt c, run2Sol.response ≠ Response.ok q n tid amt c) ∧
    (∀ q n tid amt c, run2Sol.response ≠ Response.alreadyProcessedOk q n tid amt c) := by
  refine ⟨by decide, by decide, by decide, ?_, ?_⟩ <;>
    · intro q n tid amt c
      have h2 : run2Sol.response = Response.alreadyConfirmed := by decide
      rw [h2]
      simp

/-- A directly written settled state for instantiating
c2_second_call_short_circuits. -/
def payC : CryptoPayment :=
  { paymentId := "p1", userId := "u1", planId := "pl1", network := .BEP20,
    token := "USDT", amount := 10, walletAddress := "w", memo := "m",
    transactionHash := some "h1", status := .confirmed, expiresAt := 1000,
    confirmedAt := some 5, verifiedAmount := some 10,
    verifiedFromAddress := none, confirmationCount := 5, errorMessage := none }

def dbC2 : DB := ⟨[payC], [], [], [], 0⟩

unseal Rat.mul Rat.inv Rat.add Rat.sub in
/-- C3 evidence: at the failing input — the BEP20 payment for the 10 USD
plan, with the verifier reporting 10 USDT at 5 confirmations and USDT/USD
rate 1 — the conversion does yield floor(10 / 0.45) = 22 credits, but the
commit then violates the transactionSchema cryptoNetwork enum (BEP20 is not
among SOL/USDT/USDC/null), so Transaction.create throws, the route answers
the catch-all 500, no ledger Transaction exists, no credits are granted,
and the payment record is left confirmed. The same enum admits SOL, whose
settlements do commit. -/
theorem c3_bep20_commit_rejected :
    jsFloor ((10 : ℚ) * 1 / usdPerCredit) = 22 ∧
    run1.response = Response.serverError ∧
    run1.db.transactions = [] ∧
    run1.db.users = dbBase.users ∧
    (findByPaymentId run1.db "crypto-1").map (fun q => q.status)
        = some PayStatus.confirmed ∧
    cryptoNetworkEnumOk (some "BEP20") = false ∧
    cryptoNetworkEnumOk (some "SOL") = true ∧
    run1Sol.response = Response.ok 44 84 0 20 40 := by
  refine ⟨by decide, by decide, by decide, by decide, by decide, by decide,
    by decide, by decide⟩

/-- C4: when a different payment record is already confirmed with the
submitted hash, the request is rejected as a duplicate before any state
change, whichever users own the two payments — the query filters only on
hash, confirmed status and a different document id, never on userId. -/
theorem c4_cross_user_duplicate_hash (db : DB) (pB pA : CryptoPayment)
    (uid pid h : String) (vo : VerifyOutcome) (rate : ℚ) (tS tV : ℤ)
    (hpid : pid ≠ "") (hh : h ≠ "")
    (hfind : findByPaymentId db pid = some pB)
    (howner : pB.userId = uid)
    (hnconf : pB.status ≠ .confirmed)
    (hA : pA ∈ db.payments)
    (hAconf : pA.status = .confirmed)
    (hAhash : pA.transactionHash = some h)
    (hne : pA.paymentId ≠ pB.paymentId) :
    (verifyCryptoTransaction db uid (some pid) (some h) vo rate tS tV).response
        = Response.duplicateHash ∧
    (verifyCryptoTransaction db uid (some pid) (some h) vo rate tS tV).db = db ∧
    (verifyCryptoTransaction db uid (some pid) (some h) vo rate tS tV).events = [] := by
  obtain ⟨q, hq⟩ : ∃ q, findDuplicateConfirmed db h pB.paymentId = some q := by
    have hsome : (findDuplicateConfirmed db h pB.paymentId).isSome := by
      unfold findDuplicateConfirmed
      rw [List.find?_isSome]
      refine ⟨pA, hA, ?_⟩
      simp [hAhash, hAconf, hne]
    exact Option.isSome_iff_exists.mp hsome
  have hrun : verifyCryptoTransaction db uid (some pid) (some h) vo rate tS tV
      = ⟨.duplicateHash, db, []⟩ := by
    simp only [verifyCryptoTransaction, Option.getD_some, hfind, hq]
    rw [if_neg (by simp [hpid, hh])]
    rw [if_neg (by simp [howner])]
    rw [if_neg hnconf]
  exact ⟨by rw [hrun], by rw [hrun], by rw [hrun]⟩

/-- A pending payment of a second user, for exercising the cross-user
duplicate check against the settled hash of payC. -/
def payB4 : CryptoPayment :=
  { paymentId := "p2", userId := "u2", planId := "pl1", network := .BEP20,
    token := "USDT", amount := 10, walletAddress := "w", memo := "m2",
    transactionHash := none, status := .pending, expiresAt := 1000,
    confirmedAt := none, verifiedAmount := none, verifiedFromAddress := none,
    confirmationCount := 0, errorMessage := none }

def dbC4 : DB := ⟨[payC, payB4], [], [], [], 0⟩

unseal Rat.mul Rat.inv Rat.add Rat.sub in
/-- C4 witness: user u2 submits the hash that settled the payment of user
u1; the request is rejected as a duplicate and nothing changes. -/
theorem c4_cross_user_duplicate_hash_witness :
    payC.status = PayStatus.confirmed ∧
    payC.transactionHash = some "h1" ∧
    payC.userId ≠ payB4.userId ∧
    (verifyCryptoTransaction dbC4 "u2" (some "p2") (some "h1")
      (VerifyOutcome.ok 10 none 5) 1 0 0).response = Response.duplicateHash :=
  ⟨by decide, by decide, by decide,
    (c4_cross_user_duplicate_hash dbC4 payB4 payC "u2" "p2" "h1"
      (VerifyOutcome.ok 10 none 5) 1 0 0 (by decide) (by decide) (by decide)
      (by decide) (by decide) (by decide) (by decide) (by decide) (by decide)).1⟩

/-- C5: on a still-pending payment whose expiry has passed, the call fails
with the expiry error and the record is saved as expired — the only
persistence effect, so it never becomes processing — with no ledger or user
change; the expiry clock is read only at the submission check, so past it
the returned body is identical whichever instant the verification step
completes at, and on the network whose settlement commit passes the schema
validation (SOL) the payment settles fully even when verification completes
only after the expiry time. -/
theorem c5_expiry_gates_submission_only (db : DB) (p : CryptoPayment)
    (uid pid h : String) (vo : VerifyOutcome) (a : ℚ) (fA : Option String)
    (conf : ℤ) (rate : ℚ) (tS tV : ℤ) (plan : PaymentPlan) (user : User)
    (hpid : pid ≠ "") (hh : h ≠ "")
    (hfind : findByPaymentId db pid = some p)
    (howner : p.userId = uid)
    (hpend : p.status = .pending)
    (hdup : findDuplicateConfirmed db h p.paymentId = none) :
    (p.expiresAt < tS →
      (verifyCryptoTransaction db uid (some pid) (some h) vo rate tS tV).response
          = Response.expired ∧
      findByPaymentId (verifyCryptoTransaction db uid (some pid) (some h) vo rate tS tV).db pid
          = some { p with status := PayStatus.expired } ∧
      (verifyCryptoTransaction db uid (some pid) (some h) vo rate tS tV).events
          = [.savePayment { p with status := PayStatus.expired }] ∧
      PayStatus.expired ≠ PayStatus.processing ∧
      (verifyCryptoTransaction db uid (some pid) (some h) vo rate tS tV).db.transactions
          = db.transactions ∧
      (verifyCryptoTransaction db uid (some pid) (some h) vo rate tS tV).db.users
          = db.users) ∧
    (¬ (p.expiresAt < tS) → ∀ tW,
      (verifyCryptoTransaction db uid (some pid) (some h) vo rate tS tV).response
          = (verifyCryptoTransaction db uid (some pid) (some h) vo rate tS tW).response) ∧
    (¬ (p.expiresAt < tS) → p.expiresAt < tV → p.network = Network.SOL →
      db.plans.find? (fun pl => pl.id == p.planId) = some plan →
      db.users.find? (fun u => u.id == uid) = some user →
      1 ≤ jsFloor (a * rate / usdPerCredit) →
      findTxnByHash db h = none →
      (verifyCryptoTransaction db uid (some pid) (some h) (.ok a fA conf) rate tS tV).response
          = Response.ok (jsFloor (a * rate / usdPerCredit))
              (user.availableUsage + jsFloor (a * rate / usdPerCredit))
              db.nextTxnId (a * rate) conf) := by
  refine ⟨?_, ?_, ?_⟩
  · intro hexp
    have hrun : verifyCryptoTransaction db uid (some pid) (some h) vo rate tS tV
        = ⟨.expired, db.savePayment { p with status := PayStatus.expired },
            [.savePayment { p with status := PayStatus.expired }]⟩ := by
      simp only [verifyCryptoTransaction, Option.getD_some, hfind, hdup]
      rw [if_neg (by simp [hpid, hh])]
      rw [if_neg (by simp [howner])]
      rw [if_neg (by simp [hpend])]
      rw [if_pos (by simp [CryptoPayment.isExpired, hexp])]
    refine ⟨by rw [hrun], ?_, by rw [hrun], by simp, by rw [hrun]; rfl,
      by rw [hrun]; rfl⟩
    rw [hrun]
    exact findByPaymentId_savePayment db pid p _ hfind rfl
  · intro hexp tW
    cases vo with
    | fail e =>
        rw [verify_fail_run db p uid pid h e rate tS tV hpid hh hfind howner
            (by simp [hpend]) hdup hexp,
          verify_fail_run db p uid pid h e rate tS tW hpid hh hfind howner
            (by simp [hpend]) hdup hexp]
    | ok a2 fA2 conf2 =>
        rw [verify_reaches_settle db p uid pid h a2 fA2 conf2 rate tS tV hpid hh
            hfind howner (by simp [hpend]) hdup hexp,
          verify_reaches_settle db p uid pid h a2 fA2 conf2 rate tS tW hpid hh
            hfind howner (by simp [hpend]) hdup hexp]
        exact settle_response_indep
          (db.savePayment { p with status := PayStatus.processing, transactionHash := some h })
          { p with status := PayStatus.processing, transactionHash := some h }
          uid h a2 fA2 conf2 rate tV tW
  · intro hexp htV hSOL hplan huser hcred htxn
    have hv := verify_reaches_settle db p uid pid h a fA conf rate tS tV hpid hh
      hfind howner (by simp [hpend]) hdup hexp
    have hnet : cryptoNetworkEnumOk (some (networkName p.network)) = true := by
      rw [hSOL]
      decide
    have hs := settle_ok_run
      (db.savePayment { p with status := PayStatus.processing, transactionHash := some h })
      { p with status := PayStatus.processing, transactionHash := some h }
      uid h a fA conf rate tV plan user hplan huser hcred htxn hnet
    simp only [hv, hs]
    try rfl

unseal Rat.mul Rat.inv Rat.add Rat.sub in
/-- C5 witness: an expired pending payment is rejected and marked expired;
an unexpired SOL submission yields the identical response body whether the
verification clock reads 600 or 2000000, and at the late reading — past the
1800000 expiry — it settles fully with 44 credits. -/
theorem c5_expiry_gates_submission_only_witness :
    payB4.expiresAt < 2000 ∧
    (verifyCryptoTransaction dbC4 "u2" (some "p2") (some "h2")
      (VerifyOutcome.ok 1 none 1) 1 2000 2500).response = Response.expired ∧
    ¬ (paySol.expiresAt < 500) ∧
    (verifyCryptoTransaction dbSolBase "user1" (some "crypto-2") (some "SIG1")
      (.ok 1 (some "sender") 40) 20 500 600).response
        = (verifyCryptoTransaction dbSolBase "user1" (some "crypto-2") (some "SIG1")
          (.ok 1 (some "sender") 40) 20 500 2000000).response ∧
    paySol.expiresAt < 2000000 ∧
    (verifyCryptoTransaction dbSolBase "user1" (some "crypto-2") (some "SIG1")
      (.ok 1 (some "sender") 40) 20 500 2000000).response =
        Response.ok (jsFloor ((1 : ℚ) * 20 / usdPerCredit))
          (userA.availableUsage + jsFloor ((1 : ℚ) * 20 / usdPerCredit))
          dbSolBase.nextTxnId ((1 : ℚ) * 20) 40 :=
  ⟨by decide,
    ((c5_expiry_gates_submission_only dbC4 payB4 "u2" "p2" "h2"
      (VerifyOutcome.ok 1 none 1) 1 none 1 1 2000 2500 planA userA (by decide)
      (by decide) (by decide) (by decide) (by decide) (by decide)).1
      (by decide)).1,
    by decide,
    (c5_expiry_gates_submission_only dbSolBase paySol "user1" "crypto-2" "SIG1"
      (.ok 1 (some "sender") 40) 1 (some "sender") 40 20 500 600 planA userA
      (by decide) (by decide) (by decide) (by decide) (by decide)
      (by decide)).2.1 (by decide) 2000000,
    by decide,
    (c5_expiry_gates_submission_only dbSolBase paySol "user1" "crypto-2" "SIG1"
      (.ok 1 (some "sender") 40) 1 (some "sender") 40 20 500 2000000 planA
      userA (by decide) (by decide) (by decide) (by decide) (by decide)
      (by decide)).2.2 (by decide) (by decide) rfl (by decide) (by decide)
      (by decide) (by decide)⟩

unseal Rat.mul Rat.inv Rat.add Rat.sub in
/-- C6 counterexample: 0.01 SOL at rate 20 converts to 0.20 USD and zero
credits; the call answers InsufficientAmount and grants nothing, but the
payment record ends in status confirmed, not failed — confirm() ran and was
saved before the conversion step, and the insufficient branch never calls
fail(). -/
theorem c6_counterexample :
    runSol.response = Response.insufficientAmount (1/5) usdPerCredit ∧
    (findByPaymentId runSol.db "crypto-2").map (fun q => q.status)
        = some PayStatus.confirmed ∧
    PayStatus.confirmed ≠ PayStatus.failed ∧
    runSol.db.users = dbSolBase.users ∧
    runSol.db.transactions = [] := by
  refine ⟨by decide, by decide, by decide, by decide, by decide⟩

/-- C6 (amended): a verified payment whose converted USD value yields zero
credits is answered with InsufficientAmount and grants zero credits, but the
payment record ends in status confirmed rather than failed: the handler
marks the record confirmed and saves it before the conversion step and the
insufficient branch returns without calling fail(). -/
theorem c6_insufficient_marks_confirmed (db : DB) (p : CryptoPayment)
    (uid pid h : String) (a : ℚ) (fA : Option String) (conf : ℤ) (rate : ℚ)
    (tS tV : ℤ) (plan : PaymentPlan) (user : User)
    (hpid : pid ≠ "") (hh : h ≠ "")
    (hfind : findByPaymentId db pid = some p)
    (howner : p.userId = uid)
    (hpend : p.status = .pending)
    (hdup : findDuplicateConfirmed db h p.paymentId = none)
    (hexp : ¬ (p.expiresAt < tS))
    (hplan : db.plans.find? (fun pl => pl.id == p.planId) = some plan)
    (huser : db.users.find? (fun u => u.id == uid) = some user)
    (hcred : jsFloor (a * rate / usdPerCredit) ≤ 0) :
    (verifyCryptoTransaction db uid (some pid) (some h) (.ok a fA conf) rate tS tV).response
        = Response.insufficientAmount (a * rate) usdPerCredit ∧
    findByPaymentId (verifyCryptoTransaction db uid (some pid) (some h) (.ok a fA conf) rate tS tV).db pid
        = some (CryptoPayment.confirm
            { p with status := PayStatus.processing, transactionHash := some h }
            a fA conf h tV) ∧
    (CryptoPayment.confirm
        { p with status := PayStatus.processing, transactionHash := some h }
        a fA conf h tV).status = PayStatus.confirmed ∧
    PayStatus.confirmed ≠ PayStatus.failed ∧
    (verifyCryptoTransaction db uid (some pid) (some h) (.ok a fA conf) rate tS tV).db.transactions
        = db.transactions ∧
    (verifyCryptoTransaction db uid (some pid) (some h) (.ok a fA conf) rate tS tV).db.users
        = db.users := by
  have hv := verify_reaches_settle db p uid pid h a fA conf rate tS tV hpid hh
    hfind howner (by simp [hpend]) hdup hexp
  have hs := settle_dust_run
    (db.savePayment { p with status := PayStatus.processing, transactionHash := some h })
    { p with status := PayStatus.processing, transactionHash := some h }
    uid h a fA conf rate tV plan user hplan huser hcred
  have h1 := findByPaymentId_savePayment db pid p
    { p with status := PayStatus.processing, transactionHash := some h } hfind rfl
  have h2 := findByPaymentId_savePayment
    (db.savePayment { p with status := PayStatus.processing, transactionHash := some h })
    pid { p with status := PayStatus.processing, transactionHash := some h }
    (CryptoPayment.confirm
      { p with status := PayStatus.processing, transactionHash := some h }
      a fA conf h tV) h1 rfl
  refine ⟨by simp only [hv, hs]; try rfl, ?_, rfl, by simp,
    by simp only [hv, hs]; try rfl, by simp only [hv, hs]; try rfl⟩
  simp only [hv, hs]
  exact h2

unseal Rat.mul Rat.inv Rat.add Rat.sub in
/-- C6 witness: the 0.01 SOL at rate 20 scenario instantiating the amended
theorem. -/
theorem c6_insufficient_marks_confirmed_witness :
    jsFloor ((1/100 : ℚ) * 20 / usdPerCredit) ≤ 0 ∧
    (verifyCryptoTransaction dbSolBase "user1" (some "crypto-2") (some "SIG1")
      (.ok (1/100) (some "sender") 40) 20 500 600).response
        = Response.insufficientAmount ((1/100 : ℚ) * 20) usdPerCredit :=
  ⟨by decide,
    (c6_insufficient_marks_confirmed dbSolBase paySol "user1" "crypto-2" "SIG1"
      (1/100) (some "sender") 40 20 500 600 planA userA (by decide) (by decide)
      (by decide) (by decide) (by decide) (by decide) (by decide) (by decide)
      (by decide) (by decide)).1⟩

/-- The same first settlement attempt as run1 but with the chain verifier
reporting the recoverable needs-more-confirmations condition. -/
def runFail : VerifyResult :=
  verifyCryptoTransaction dbBase "user1" (some "crypto-1") (some "0xHASH")
    (.fail (some "Transaction needs at least 3 confirmations. Current: 2"))
    1 500 600

unseal Rat.mul Rat.inv Rat.add Rat.sub in
/-- C7 counterexample: when the verifier reports the recoverable
needs-more-confirmations failure, the handler still calls fail() and saves
the record: the payment ends in status failed, contradicting the claim that
recoverable failures leave the record unmarked. -/
theorem c7_counterexample :
    (findByPaymentId runFail.db "crypto-1").map (fun q => q.status)
        = some PayStatus.failed ∧
    runFail.response = Response.verificationFailed
        "Transaction needs at least 3 confirmations. Current: 2" := by
  refine ⟨by decide, by decide⟩

/-- C7 (amended): the orchestrator marks the PaymentRequest failed on every
verification failure, recoverable or not — the failure branch never
distinguishes failure kinds — but the same payment can still be resubmitted
later: only the confirmed status triggers the already-processed
short-circuit, so a failed-status record passes every guard, is saved back
to processing as the first persistence effect of the retry, and proceeds to
verification and the settlement stage. -/
theorem c7_failure_marks_failed_but_retryable (db : DB) (p : CryptoPayment)
    (uid pid h : String) (e : Option String) (rate : ℚ) (tS tV : ℤ)
    (hpid : pid ≠ "") (hh : h ≠ "")
    (hfind : findByPaymentId db pid = some p)
    (howner : p.userId = uid)
    (hpend : p.status = .pending)
    (hdup : findDuplicateConfirmed db h p.paymentId = none)
    (hexp : ¬ (p.expiresAt < tS)) :
    ((verifyCryptoTransaction db uid (some pid) (some h) (.fail e) rate tS tV).response
        = Response.verificationFailed (jsOr e (verifyFailDefault p.network)) ∧
      findByPaymentId (verifyCryptoTransaction db uid (some pid) (some h) (.fail e) rate tS tV).db pid
        = some (CryptoPayment.fail
            { p with status := PayStatus.processing, transactionHash := some h }
            (jsOr e (verifyFailDefault p.network))) ∧
      (CryptoPayment.fail
          { p with status := PayStatus.processing, transactionHash := some h }
          (jsOr e (verifyFailDefault p.network))).status = PayStatus.failed ∧
      (verifyCryptoTransaction db uid (some pid) (some h) (.fail e) rate tS tV).db.transactions
        = db.transactions ∧
      (verifyCryptoTransaction db uid (some pid) (some h) (.fail e) rate tS tV).db.users
        = db.users) ∧
    (∀ (db2 : DB) (p2 : CryptoPayment) (uid2 pid2 h2 : String)
      (vo2 : VerifyOutcome) (rate2 : ℚ) (tS2 tV2 : ℤ),
      pid2 ≠ "" → h2 ≠ "" →
      findByPaymentId db2 pid2 = some p2 →
      p2.userId = uid2 →
      p2.status = PayStatus.failed →
      findDuplicateConfirmed db2 h2 p2.paymentId = none →
      ¬ (p2.expiresAt < tS2) →
      (verifyCryptoTransaction db2 uid2 (some pid2) (some h2) vo2 rate2 tS2 tV2).events.head?
        = some (.savePayment
            { p2 with status := PayStatus.processing, transactionHash := some h2 }) ∧
      (verifyCryptoTransaction db2 uid2 (some pid2) (some h2) vo2 rate2 tS2 tV2).response
        ≠ Response.alreadyConfirmed ∧
      (∀ a fA conf, vo2 = .ok a fA conf →
        (verifyCryptoTransaction db2 uid2 (some pid2) (some h2) vo2 rate2 tS2 tV2).response
          = (settleConfirmed
              (db2.savePayment
                { p2 with status := PayStatus.processing, transactionHash := some h2 })
              { p2 with status := PayStatus.processing, transactionHash := some h2 }
              uid2 h2 a fA conf rate2 tV2).response)) := by
  constructor
  · have hrun : verifyCryptoTransaction db uid (some pid) (some h) (.fail e) rate tS tV
        = ⟨.verificationFailed (jsOr e (verifyFailDefault p.network)),
            (db.savePayment
              { p with status := PayStatus.processing, transactionHash := some h }).savePayment
              (CryptoPayment.fail
                { p with status := PayStatus.processing, transactionHash := some h }
                (jsOr e (verifyFailDefault p.network))),
            [.savePayment { p with status := PayStatus.processing, transactionHash := some h },
              .savePayment (CryptoPayment.fail
                { p with status := PayStatus.processing, transactionHash := some h }
                (jsOr e (verifyFailDefault p.network)))]⟩ :=
      verify_fail_run db p uid pid h e rate tS tV hpid hh hfind howner
        (by simp [hpend]) hdup hexp
    have h1 := findByPaymentId_savePayment db pid p
      { p with status := PayStatus.processing, transactionHash := some h } hfind rfl
    have h2 := findByPaymentId_savePayment
      (db.savePayment { p with status := PayStatus.processing, transactionHash := some h })
      pid { p with status := PayStatus.processing, transactionHash := some h }
      (CryptoPayment.fail
        { p with status := PayStatus.processing, transactionHash := some h }
        (jsOr e (verifyFailDefault p.network))) h1 rfl
    refine ⟨by rw [hrun], ?_, rfl, by rw [hrun]; rfl, by rw [hrun]; rfl⟩
    rw [hrun]
    exact h2
  · intro db2 p2 uid2 pid2 h2 vo2 rate2 tS2 tV2 hpid2 hh2 hfind2 howner2
      hfail2 hdup2 hexp2
    cases vo2 with
    | fail e2 =>
        rw [verify_fail_run db2 p2 uid2 pid2 h2 e2 rate2 tS2 tV2 hpid2 hh2
          hfind2 howner2 (by simp [hfail2]) hdup2 hexp2]
        exact ⟨rfl, by simp, fun a fA conf hcontra => by cases hcontra⟩
    | ok a2 fA2 conf2 =>
        rw [verify_reaches_settle db2 p2 uid2 pid2 h2 a2 fA2 conf2 rate2 tS2 tV2
          hpid2 hh2 hfind2 howner2 (by simp [hfail2]) hdup2 hexp2]
        refine ⟨rfl, ?_, ?_⟩
        · exact settle_response_not_alreadyConfirmed
            (db2.savePayment
              { p2 with status := PayStatus.processing, transactionHash := some h2 })
            { p2 with status := PayStatus.processing, transactionHash := some h2 }
            uid2 h2 a2 fA2 conf2 rate2 tV2
        · intro a fA conf hok
          cases hok
          rfl

/-- The first payment record after the failed verification attempt. -/
def payBaseFailed : CryptoPayment :=
  { paymentId := "crypto-1", userId := "user1", planId := "plan1",
    network := .BEP20, token := "USDT", amount := 10,
    walletAddress := "0xWALLET", memo := "TXN-user1-ypto-1",
    transactionHash := some "0xHASH", status := .failed, expiresAt := 1800000,
    confirmedAt := none, verifiedAmount := none, verifiedFromAddress := none,
    confirmationCount := 0,
    errorMessage := some "Transaction needs at least 3 confirmations. Current: 2" }

unseal Rat.mul Rat.inv Rat.add Rat.sub in
/-- C7 witness: the needs-more-confirmations failure marks the concrete
payment failed, and a retry on the very same record passes the guards and is
saved back to processing as the first effect of the new attempt. -/
theorem c7_failure_marks_failed_but_retryable_witness :
    (verifyCryptoTransaction dbBase "user1" (some "crypto-1") (some "0xHASH")
      (.fail (some "Transaction needs at least 3 confirmations. Current: 2"))
      1 500 600).response = Response.verificationFailed
        "Transaction needs at least 3 confirmations. Current: 2" ∧
    (verifyCryptoTransaction runFail.db "user1" (some "crypto-1") (some "0xHASH")
      (.ok 10 (some "0xsender") 5) 1 700 800).events.head?
        = some (.savePayment
            { payBaseFailed with
                status := PayStatus.processing, transactionHash := some "0xHASH" }) :=
  ⟨(c7_failure_marks_failed_but_retryable dbBase payBase "user1" "crypto-1"
      "0xHASH" (some "Transaction needs at least 3 confirmations. Current: 2")
      1 500 600 (by decide) (by decide) (by decide) (by decide) (by decide)
      (by decide) (by decide)).1.1,
    ((c7_failure_marks_failed_but_retryable dbBase payBase "user1" "crypto-1"
      "0xHASH" (some "Transaction needs at least 3 confirmations. Current: 2")
      1 500 600 (by decide) (by decide) (by decide) (by decide) (by decide)
      (by decide) (by decide)).2 runFail.db payBaseFailed "user1" "crypto-1"
      "0xHASH" (.ok 10 (some "0xsender") 5) 1 700 800 (by decide) (by decide)
      (by decide) (by decide) (by decide) (by decide) (by decide)).1⟩

/-- C8: on a receipt found with success status, verifyBEP20Transaction takes
the confirmation depth to be the current block number minus the receipt
block number, and below the fixed minimum of 3 it fails with the
needs-more-confirmations condition, whose message carries both the required
minimum and the current count and which is a condition distinct from
not-found and from failed-on-chain. -/
theorem c8_confirmation_floor (receipt : Option BscReceipt) (r : BscReceipt)
    (currentBlock : ℤ) (decimalsFromContract : Option ℕ)
    (expectedToAddress : String)
    (hrec : receipt = some r) (hst : r.status = 1)
    (hdepth : currentBlock - r.blockNumber < 3) :
    verifyBEP20Transaction receipt currentBlock decimalsFromContract expectedToAddress
        = .error (.needsConfirmations 3 (currentBlock - r.blockNumber)) ∧
    (∃ s1 s2, renderBepFail (BepFail.needsConfirmations 3 (currentBlock - r.blockNumber))
        = s1 ++ toString (3 : ℤ) ++ s2 ++ toString (currentBlock - r.blockNumber)) ∧
    BepFail.needsConfirmations 3 (currentBlock - r.blockNumber) ≠ BepFail.notFound ∧
    BepFail.needsConfirmations 3 (currentBlock - r.blockNumber) ≠ BepFail.txFailed := by
  refine ⟨?_, ⟨"Transaction needs at least ", " confirmations. Current: ", rfl⟩,
    by simp, by simp⟩
  subst hrec
  simp only [verifyBEP20Transaction]
  rw [if_neg (by simp [hst])]
  rw [if_pos (by simpa [minConfirmationsBep] using hdepth)]
  rfl

/-- C8 witness: a successful receipt two blocks deep is rejected with the
needs-more-confirmations condition carrying minimum 3 and current count 2. -/
theorem c8_confirmation_floor_witness :
    (some (⟨1, 100, []⟩ : BscReceipt) = some (⟨1, 100, []⟩ : BscReceipt)) ∧
    ((102 : ℤ) - 100 < 3) ∧
    verifyBEP20Transaction (some ⟨1, 100, []⟩) 102 (some 18) "0xW"
        = .error (.needsConfirmations 3 2) :=
  ⟨rfl, by decide,
    (c8_confirmation_floor (some ⟨1, 100, []⟩) ⟨1, 100, []⟩ 102 (some 18) "0xW"
      rfl rfl (by decide)).1⟩

/-- C9: getUsdtUsdRate returns an unexpired cached value unchanged with no
upstream call and no cache write; and on a cache miss with a failed upstream
fetch it returns the positive configured override when present and 1
otherwise, in both cases writing that fallback into the cache with a fresh
sixty-second TTL instead of raising an error. -/
theorem c9_usdt_rate_cache_and_fallback (cache : RateCache) (now : ℤ)
    (fetched envFallbackRate : Option ℚ) :
    (∀ v, cache.value = some v → 0 < v → now < cache.expiresAt →
      getUsdtUsdRate cache now fetched envFallbackRate = ⟨v, false, cache⟩) ∧
    ((cache.value = none ∨ ∃ v, cache.value = some v ∧ 0 < v ∧ cache.expiresAt ≤ now) →
      fetched = none →
      ((∀ e, envFallbackRate = some e → 0 < e →
          getUsdtUsdRate cache now fetched envFallbackRate
            = ⟨e, true, ⟨some e, now + oneMinuteMs⟩⟩) ∧
        (envFallbackRate = none →
          getUsdtUsdRate cache now fetched envFallbackRate
            = ⟨1, true, ⟨some 1, now + oneMinuteMs⟩⟩) ∧
        (∀ e, envFallbackRate = some e → e ≤ 0 →
          getUsdtUsdRate cache now fetched envFallbackRate
            = ⟨1, true, ⟨some 1, now + oneMinuteMs⟩⟩))) := by
  constructor
  · intro v hv h0 hexp
    simp only [getUsdtUsdRate, hv]
    rw [if_pos ⟨ne_of_gt h0, hexp⟩]
  · intro hmiss hf
    have hfetch : getUsdtUsdRate cache now fetched envFallbackRate
        = usdtFetch now fetched envFallbackRate := by
      rcases hmiss with hnone | ⟨v, hv, h0, hle⟩
      · simp only [getUsdtUsdRate, hnone]
      · simp only [getUsdtUsdRate, hv]
        rw [if_neg]
        intro hc
        exact absurd hc.2 (by omega)
    subst hf
    refine ⟨?_, ?_, ?_⟩
    · intro e he hpos
      rw [hfetch]
      simp only [usdtFetch, usdtFallback, he]
      rw [if_pos hpos]
    · intro he
      rw [hfetch]
      simp only [usdtFetch, usdtFallback, he]
    · intro e he hneg
      rw [hfetch]
      simp only [usdtFetch, usdtFallback, he]
      rw [if_neg (not_lt.mpr hneg)]

unseal Rat.mul Rat.inv Rat.add Rat.sub in
/-- C9 witness: a fresh cached value 2 is served without a network call, and
a cold cache with an unreachable feed and no override caches and returns 1
with a sixty-second TTL. -/
theorem c9_usdt_rate_cache_and_fallback_witness :
    ((⟨some 2, 100⟩ : RateCache).value = some 2 ∧ (0 : ℚ) < 2 ∧ (50 : ℤ) < 100 ∧
      getUsdtUsdRate ⟨some 2, 100⟩ 50 none none = ⟨2, false, ⟨some 2, 100⟩⟩) ∧
    getUsdtUsdRate ⟨none, 0⟩ 50 none none = ⟨1, true, ⟨some 1, 50 + oneMinuteMs⟩⟩ :=
  ⟨⟨rfl, by decide, by decide,
    (c9_usdt_rate_cache_and_fallback ⟨some 2, 100⟩ 50 none none).1 2 rfl
      (by decide) (by decide)⟩,
    ((c9_usdt_rate_cache_and_fallback ⟨none, 0⟩ 50 none none).2 (Or.inl rfl)
      rfl).2.1 rfl⟩

/-- C10: a crypto payment request is created with amount equal to the USD
price of its plan, and a settlement reaching the credit-conversion step with
at least one credit overwrites that stored amount with the dynamic USD value
rounded to two decimal places, persisting the overwrite as the third save
effect; every ledger Transaction creation lies strictly after it in the
effect tail, and the creation actually happens exactly when the network name
passes the transactionSchema cryptoNetwork enum — on SOL the tail is the
creation followed by the user save, while on BEP20 the creation throws and
the tail is empty; in either case the settled record retains only the
rounded dynamic value. -/
theorem c10_amount_overwritten_before_ledger (db : DB) (p : CryptoPayment)
    (uid pid h : String) (a : ℚ) (fA : Option String) (conf : ℤ) (rate : ℚ)
    (tS tV : ℤ) (plan : PaymentPlan) (user : User)
    (hpid : pid ≠ "") (hh : h ≠ "")
    (hfind : findByPaymentId db pid = some p)
    (howner : p.userId = uid)
    (hnconf : p.status ≠ .confirmed)
    (hdup : findDuplicateConfirmed db h p.paymentId = none)
    (hexp : ¬ (p.expiresAt < tS))
    (hplan : db.plans.find? (fun pl => pl.id == p.planId) = some plan)
    (huser : db.users.find? (fun u => u.id == uid) = some user)
    (hcred : 1 ≤ jsFloor (a * rate / usdPerCredit))
    (htxn : findTxnByHash db h = none) :
    (∀ (db0 : DB) (uid0 planIdReq : String) (network0 : Network)
      (paymentId0 wallet0 : String) (now0 em0 : ℤ) (plan0 : PaymentPlan)
      (pNew : CryptoPayment),
      db0.plans.find? (fun pl => pl.id == planIdReq) = some plan0 →
      (createCryptoPayment db0 uid0 planIdReq network0 paymentId0 wallet0 now0 em0).1
        = CreateResponse.ok pNew →
      pNew.amount = plan0.price) ∧
    (∃ pr p1 pA rest,
      (verifyCryptoTransaction db uid (some pid) (some h) (.ok a fA conf) rate tS tV).events
        = .savePayment pr :: .savePayment p1 :: .savePayment pA :: rest ∧
      pA.amount = round2 (a * rate) ∧
      findByPaymentId (verifyCryptoTransaction db uid (some pid) (some h) (.ok a fA conf) rate tS tV).db pid
        = some pA ∧
      (cryptoNetworkEnumOk (some (networkName p.network)) = true →
        ∃ t u, rest = [.createTxn t, .saveUser u] ∧
          t.cryptoTransactionHash = BsonStr.str h) ∧
      (cryptoNetworkEnumOk (some (networkName p.network)) = false → rest = [])) := by
  have hv := verify_reaches_settle db p uid pid h a fA conf rate tS tV hpid hh
    hfind howner hnconf hdup hexp
  have h1 := findByPaymentId_savePayment db pid p
    { p with status := PayStatus.processing, transactionHash := some h } hfind rfl
  have h2 := findByPaymentId_savePayment
    (db.savePayment { p with status := PayStatus.processing, transactionHash := some h })
    pid { p with status := PayStatus.processing, transactionHash := some h }
    (CryptoPayment.confirm
      { p with status := PayStatus.processing, transactionHash := some h }
      a fA conf h tV) h1 rfl
  have h3 := findByPaymentId_savePayment
    ((db.savePayment { p with status := PayStatus.processing, transactionHash := some h }).savePayment
      (CryptoPayment.confirm
        { p with status := PayStatus.processing, transactionHash := some h }
        a fA conf h tV))
    pid
    (CryptoPayment.confirm
      { p with status := PayStatus.processing, transactionHash := some h }
      a fA conf h tV)
    ({ (CryptoPayment.confirm
        { p with status := PayStatus.processing, transactionHash := some h }
        a fA conf h tV) with amount := round2 (a * rate) })
    h2 rfl
  constructor
  · intro db0 uid0 planIdReq network0 paymentId0 wallet0 now0 em0 plan0 pNew
      hplanC hok
    simp only [createCryptoPayment, hplanC] at hok
    split at hok
    · simp at hok
    · split at hok
      · simp at hok
      · split at hok
        · simp at hok
        · simp only [CreateResponse.ok.injEq] at hok
          rw [← hok]
  · by_cases hnet : cryptoNetworkEnumOk (some (networkName p.network)) = true
    · have hs := settle_ok_run
        (db.savePayment { p with status := PayStatus.processing, transactionHash := some h })
        { p with status := PayStatus.processing, transactionHash := some h }
        uid h a fA conf rate tV plan user hplan huser hcred htxn hnet
      refine ⟨{ p with status := PayStatus.processing, transactionHash := some h },
        CryptoPayment.confirm
          { p with status := PayStatus.processing, transactionHash := some h }
          a fA conf h tV,
        { (CryptoPayment.confirm
            { p with status := PayStatus.processing, transactionHash := some h }
            a fA conf h tV) with amount := round2 (a * rate) },
        [DbEvent.createTxn
            ({ id := db.nextTxnId,
               userId := uid,
               amount := jsRound (a * rate * 100),
               currency := "usd",
               quotaAmount := jsFloor (a * rate / usdPerCredit),
               status := "succeeded",
               paymentMethod := "crypto",
               description := "Purchase " ++
                 toString (jsFloor (a * rate / usdPerCredit)) ++
                 " credits via " ++ networkName p.network ++
                 " (dynamic rate) - " ++ plan.name,
               stripePaymentIntentId := .missing,
               cryptoTransactionHash := .str h,
               cryptoNetwork := some (networkName p.network),
               cryptoToken := some p.token } : Transaction),
          DbEvent.saveUser (User.addQuota
            { user with totalSpent := user.totalSpent + a * rate }
            (jsFloor (a * rate / usdPerCredit)))],
        ?_, rfl, ?_, ?_, ?_⟩
      · simp only [hv, hs]
        try rfl
      · simp only [hv, hs]
        exact h3
      · intro hne
        exact ⟨_, _, rfl, rfl⟩
      · intro hc
        rw [hnet] at hc
        cases hc
    · have hnf : cryptoNetworkEnumOk (some (networkName p.network)) = false := by
        simpa using hnet
      have hs := settle_enum_reject_run
        (db.savePayment { p with status := PayStatus.processing, transactionHash := some h })
        { p with status := PayStatus.processing, transactionHash := some h }
        uid h a fA conf rate tV plan user hplan huser hcred htxn hnf
      refine ⟨{ p with status := PayStatus.processing, transactionHash := some h },
        CryptoPayment.confirm
          { p with status := PayStatus.processing, transactionHash := some h }
          a fA conf h tV,
        { (CryptoPayment.confirm
            { p with status := PayStatus.processing, transactionHash := some h }
            a fA conf h tV) with amount := round2 (a * rate) },
        [], ?_, rfl, ?_, ?_, fun _ => rfl⟩
      · simp only [hv, hs]
        try rfl
      · simp only [hv, hs]
        exact h3
      · intro hc
        rw [hnf] at hc
        cases hc

unseal Rat.mul Rat.inv Rat.add Rat.sub in
/-- C10 witness: the SOL request is created with the 10 USD plan price, and
the settled record carries round2(20) with the overwrite saved strictly
before the ledger Transaction creation, the SOL tail being exactly the
creation followed by the user save. -/
theorem c10_amount_overwritten_before_ledger_witness :
    paySol.amount = planA.price ∧
    (∃ pr p1 pA rest,
      run1Sol.events
        = .savePayment pr :: .savePayment p1 :: .savePayment pA :: rest ∧
      pA.amount = round2 ((1 : ℚ) * 20) ∧
      findByPaymentId run1Sol.db "crypto-2" = some pA ∧
      (cryptoNetworkEnumOk (some (networkName paySol.network)) = true →
        ∃ t u, rest = [.createTxn t, .saveUser u] ∧
          t.cryptoTransactionHash = BsonStr.str "SIG1") ∧
      (cryptoNetworkEnumOk (some (networkName paySol.network)) = false →
        rest = [])) :=
  ⟨by decide,
    (c10_amount_overwritten_before_ledger dbSolBase paySol "user1" "crypto-2"
      "SIG1" 1 (some "sender") 40 20 500 600 planA userA (by decide)
      (by decide) (by decide) (by decide) (by decide) (by decide) (by decide)
      (by decide) (by decide) (by decide) (by decide)).2⟩

unseal Rat.mul Rat.inv Rat.add Rat.sub in
theorem c2_second_call_short_circuits_witness :
    findByPaymentId dbC2 "p1" = some payC ∧
    payC.userId = "u1" ∧
    payC.status = PayStatus.confirmed ∧
    (verifyCryptoTransaction dbC2 "u1" (some "p1") (some "h1")
      (VerifyOutcome.ok 10 none 5) 1 0 0).response = Response.alreadyConfirmed :=
  ⟨by decide, by decide, by decide,
    (c2_second_call_short_circuits dbC2 payC "u1" "p1" "h1"
      (VerifyOutcome.ok 10 none 5) 1 0 0 (by decide) (by decide) (by decide)
      (by decide) (by decide)).1⟩

end Gto
